import Mathlib

/-!
Verification of the `acolor` color conversion crate.

Shallow embedding conventions:
- `f32` values are modelled as exact rationals (`ℚ`): every decimal literal of
  the source is interpreted as the rational it denotes, and all field
  arithmetic (`+`, `-`, `*`, `/`) is exact rational arithmetic.  This is the
  real-arithmetic idealization of the IEEE float code; rounding-level (ULP)
  effects are outside the model.
- `u8` values are modelled as `ℕ` (no integer arithmetic is performed on them
  anywhere in the crate, only copies and codec conversions).
- The transcendental math primitives that the crate takes from `std`/`libm`
  (`powf`, `cbrt`, `atan2`, `hypot`, `sin`, `cos`) are not code of this
  repository; they are abstracted as a bundle of function parameters
  (`F32Math`), and every theorem quantifies over all instantiations.
- The `Unorm8` codec comes from the external `iunorm` crate (not in the
  repository); it is modelled from the spec, section 4.1.
- `pmax`/`pclamp` come from the external `devela` crate; they are modelled
  after the crate's own identical helpers `max`/`clamp` in `lib.rs`.
-/

namespace Acolor

/-- Bundle of the external floating-point math primitives used by the crate
(`std` intrinsics or `libm` fallbacks).  All theorems hold for every
instantiation of this bundle. -/
structure F32Math where
  powf : ℚ → ℚ → ℚ
  cbrt : ℚ → ℚ
  atan2 : ℚ → ℚ → ℚ
  hypot : ℚ → ℚ → ℚ
  cos : ℚ → ℚ
  sin : ℚ → ℚ

/-- The default gamma value (`lib.rs`): `pub const GAMMA_32: f32 = 2.4;`. -/
def GAMMA_32 : ℚ := 2.4

/-- The rational value of `core::f32::consts::PI`
(the `f32` nearest to the real number pi). -/
def PI_32 : ℚ := 13176795 / 4194304

/-- Non-linear sRGB color, `3` × `u8` components (`srgb.rs`). -/
structure Srgb8 where
  r : ℕ
  g : ℕ
  b : ℕ
  deriving DecidableEq

/-- Non-linear sRGB+A color, `4` × `u8` components (`srgb.rs`). -/
structure Srgba8 where
  r : ℕ
  g : ℕ
  b : ℕ
  a : ℕ
  deriving DecidableEq

/-- Non-linear sRGB color, `3` × `f32` components (`srgb.rs`). -/
structure Srgb32 where
  r : ℚ
  g : ℚ
  b : ℚ
  deriving DecidableEq

/-- Non-linear sRGB+A color, `4` × `f32` components (`srgb.rs`). -/
structure Srgba32 where
  r : ℚ
  g : ℚ
  b : ℚ
  a : ℚ
  deriving DecidableEq

/-- Linear sRGB color, `3` × `f32` components (`srgb.rs`). -/
structure LinearSrgb32 where
  r : ℚ
  g : ℚ
  b : ℚ
  deriving DecidableEq

/-- Linear sRGB+A color, `4` × `f32` components (`srgb.rs`). -/
structure LinearSrgba32 where
  r : ℚ
  g : ℚ
  b : ℚ
  a : ℚ
  deriving DecidableEq

/-- Oklab color, `3` × `f32` components (`oklab.rs`). -/
structure Oklab32 where
  l : ℚ
  a : ℚ
  b : ℚ
  deriving DecidableEq

/-- Oklch color, `3` × `f32` components (`oklab.rs`). -/
structure Oklch32 where
  l : ℚ
  c : ℚ
  h : ℚ
  deriving DecidableEq

/-- Modelled from the spec: the `Unorm8` codec is the external `iunorm` crate,
absent from the repository.  Section 4.1: `to_float(byte) -> f32` maps `0..255`
linearly onto `[0.0, 1.0]` via `byte as f32 / 255.0`. -/
def Unorm8.to_f32 (b : ℕ) : ℚ := (b : ℚ) / 255

/-- Modelled from the spec: the `Unorm8` codec is the external `iunorm` crate,
absent from the repository.  Section 4.1: `from_float(x) -> u8` is the
round-trip inverse of `to_float` with rounding to nearest and saturation for
out-of-`[0,1]` inputs. -/
def Unorm8.from_f32 (x : ℚ) : ℕ :=
  if x ≤ 0 then 0
  else if 1 ≤ x then 255
  else (round (x * 255)).toNat

/-- Modelled after the crate's own helper `max` (`lib.rs`): the external
`devela::pmax` is a `PartialOrd` maximum, `if a > b { a } else { b }`. -/
def pmax (a b : ℚ) : ℚ := if a > b then a else b

/-- Modelled after the crate's own helper `min` (`lib.rs`): the external
`devela` minimum, `if a < b { a } else { b }`. -/
def pmin (a b : ℚ) : ℚ := if a < b then a else b

/-- Modelled after the crate's own helper `clamp` (`lib.rs`): the external
`devela::pclamp`, `pmin(pmax(value, vmin), vmax)`. -/
def pclamp (value vmin vmax : ℚ) : ℚ := pmin (pmax value vmin) vmax

/-- Embeds `linearize32` (`srgb.rs`): applies the gamma to an `f32` channel. -/
def linearize32 (P : F32Math) (nonlinear gamma : ℚ) : ℚ :=
  if nonlinear ≥ 0.04045 then
    P.powf ((nonlinear + 0.055) / (1 + 0.055)) gamma
  else
    nonlinear / 12.92

/-- Embeds `nonlinearize32` (`srgb.rs`): removes the gamma from an `f32`
channel. -/
def nonlinearize32 (P : F32Math) (linear gamma : ℚ) : ℚ :=
  if linear ≥ 0.0031308 then
    1.055 * P.powf linear (1.0 / gamma) - 0.055
  else
    12.92 * linear

/-- Embeds `Oklab32::new` (`oklab.rs`):
`l = pmax(0.0, lightness)`, `a = pclamp(a, -0.5, 0.5)`, `b = pclamp(b, -0.5, 0.5)`. -/
def Oklab32.new (lightness a b : ℚ) : Oklab32 :=
  { l := pmax 0.0 lightness, a := pclamp a (-0.5) 0.5, b := pclamp b (-0.5) 0.5 }

/-- Embeds `Oklch32::new` (`oklab.rs`):
`l = pclamp(luminance, 0.0, 100.0)`, `c = pclamp(chroma, 0.0, 0.5)`,
`h = pclamp(hue, 0.0, 360.)`. -/
def Oklch32.new (luminance chroma hue : ℚ) : Oklch32 :=
  { l := pclamp luminance 0.0 100.0, c := pclamp chroma 0.0 0.5, h := pclamp hue 0.0 360 }

/-- Embeds `Oklab32::squared_distance` (`oklab.rs`, `std` path):
`(self.l - other.l).powi(2) + (self.a - other.a).powi(2) + (self.b - other.b).powi(2)`. -/
def Oklab32.squared_distance (x other : Oklab32) : ℚ :=
  (x.l - other.l) ^ 2 + (x.a - other.a) ^ 2 + (x.b - other.b) ^ 2

/-- Embeds the file-private `oklab32_to_oklch32` (`oklab.rs`, `std` path). -/
def oklab32_to_oklch32 (P : F32Math) (c : Oklab32) : Oklch32 :=
  let hue := P.atan2 c.b c.a * 180 / PI_32
  let h := if hue ≥ 0 then hue else hue + 360
  { l := c.l, c := P.hypot c.a c.b, h := h }

/-- Embeds the file-private `oklch32_to_oklab32` (`oklab.rs`, `std` path). -/
def oklch32_to_oklab32 (P : F32Math) (c : Oklch32) : Oklab32 :=
  { l := c.l
    a := c.c * P.cos (c.h * PI_32 / 180)
    b := c.c * P.sin (c.h * PI_32 / 180) }

/-- Embeds the file-private `linear_srgb32_to_oklab32` (`oklab.rs`, `std` path). -/
def linear_srgb32_to_oklab32 (P : F32Math) (c : LinearSrgb32) : Oklab32 :=
  let l := P.cbrt (0.4122214708 * c.r + 0.5363325363 * c.g + 0.0514459929 * c.b)
  let m := P.cbrt (0.2119034982 * c.r + 0.6806995451 * c.g + 0.1073969566 * c.b)
  let s := P.cbrt (0.0883024619 * c.r + 0.2817188376 * c.g + 0.6299787005 * c.b)
  { l := 0.2104542553 * l + 0.7936177850 * m - 0.0040720468 * s
    a := 1.9779984951 * l - 2.4285922050 * m + 0.4505937099 * s
    b := 0.0259040371 * l + 0.7827717662 * m - 0.8086757660 * s }

/-- Embeds the file-private `oklab32_to_linear_srgb32` (`oklab.rs`). -/
def oklab32_to_linear_srgb32 (c : Oklab32) : LinearSrgb32 :=
  let l1 := c.l + 0.3963377774 * c.a + 0.2158037573 * c.b
  let m1 := c.l - 0.1055613458 * c.a - 0.0638541728 * c.b
  let s1 := c.l - 0.0894841775 * c.a - 1.2914855480 * c.b
  let l := l1 * l1 * l1
  let m := m1 * m1 * m1
  let s := s1 * s1 * s1
  { r := 4.0767416621 * l - 3.3077115913 * m + 0.2309699292 * s
    g := -1.2684380046 * l + 2.6097574011 * m - 0.3413193965 * s
    b := -0.0041960863 * l - 0.7034186147 * m + 1.7076147010 * s }

/-- Embeds `Srgb8::to_srgba8` (`srgb.rs`): verbatim field copies plus alpha. -/
def Srgb8.to_srgba8 (c : Srgb8) (alpha : ℕ) : Srgba8 :=
  { r := c.r, g := c.g, b := c.b, a := alpha }

/-- Embeds `Srgb8::to_srgb32` (`srgb.rs`): channels through `Unorm8::to_f32`. -/
def Srgb8.to_srgb32 (c : Srgb8) : Srgb32 :=
  { r := Unorm8.to_f32 c.r, g := Unorm8.to_f32 c.g, b := Unorm8.to_f32 c.b }

/-- Embeds `Srgb8::to_srgba32` (`srgb.rs`). -/
def Srgb8.to_srgba32 (c : Srgb8) (alpha : ℚ) : Srgba32 :=
  { r := Unorm8.to_f32 c.r, g := Unorm8.to_f32 c.g, b := Unorm8.to_f32 c.b, a := alpha }

/-- Embeds `Srgb8::from_srgb32` (`srgb.rs`): channels through `Unorm8::from_f32`. -/
def Srgb8.from_srgb32 (c : Srgb32) : Srgb8 :=
  { r := Unorm8.from_f32 c.r, g := Unorm8.from_f32 c.g, b := Unorm8.from_f32 c.b }

/-- Embeds `Srgb8::from_srgba32` (`srgb.rs`). -/
def Srgb8.from_srgba32 (c : Srgba32) : Srgb8 :=
  { r := Unorm8.from_f32 c.r, g := Unorm8.from_f32 c.g, b := Unorm8.from_f32 c.b }

/-- Embeds `Srgba8::to_srgb8` (`srgb.rs`): verbatim field copies, alpha dropped. -/
def Srgba8.to_srgb8 (c : Srgba8) : Srgb8 :=
  { r := c.r, g := c.g, b := c.b }

/-- Embeds `Srgba8::from_srgb8` (`srgb.rs`). -/
def Srgba8.from_srgb8 (c : Srgb8) (alpha : ℕ) : Srgba8 :=
  { r := c.r, g := c.g, b := c.b, a := alpha }

/-- Embeds `Srgba8::to_srgba32` (`srgb.rs`): all four channels, alpha included,
through `Unorm8::to_f32`. -/
def Srgba8.to_srgba32 (c : Srgba8) : Srgba32 :=
  { r := Unorm8.to_f32 c.r, g := Unorm8.to_f32 c.g, b := Unorm8.to_f32 c.b
    a := Unorm8.to_f32 c.a }

/-- Embeds `Srgba8::from_srgba32` (`srgb.rs`). -/
def Srgba8.from_srgba32 (c : Srgba32) : Srgba8 :=
  { r := Unorm8.from_f32 c.r, g := Unorm8.from_f32 c.g, b := Unorm8.from_f32 c.b
    a := Unorm8.from_f32 c.a }

/-- Embeds `Srgba8::to_srgb32` (`srgb.rs`). -/
def Srgba8.to_srgb32 (c : Srgba8) : Srgb32 :=
  { r := Unorm8.to_f32 c.r, g := Unorm8.to_f32 c.g, b := Unorm8.to_f32 c.b }

/-- Embeds `Srgba8::from_srgb32` (`srgb.rs`). -/
def Srgba8.from_srgb32 (c : Srgb32) (alpha : ℕ) : Srgba8 :=
  { r := Unorm8.from_f32 c.r, g := Unorm8.from_f32 c.g, b := Unorm8.from_f32 c.b, a := alpha }

/-- Embeds `Srgb32::to_srgba32` (`srgb.rs`): verbatim field copies plus alpha. -/
def Srgb32.to_srgba32 (c : Srgb32) (alpha : ℚ) : Srgba32 :=
  { r := c.r, g := c.g, b := c.b, a := alpha }

/-- Embeds `Srgb32::from_srgba32` (`srgb.rs`): verbatim field copies, alpha dropped. -/
def Srgb32.from_srgba32 (c : Srgba32) : Srgb32 :=
  { r := c.r, g := c.g, b := c.b }

/-- Embeds `Srgb32::to_srgb8` (`srgb.rs`): delegates to `Srgb8::from_srgb32`. -/
def Srgb32.to_srgb8 (c : Srgb32) : Srgb8 := Srgb8.from_srgb32 c

/-- Embeds `Srgb32::to_srgba8` (`srgb.rs`): delegates to `Srgba8::from_srgb32`. -/
def Srgb32.to_srgba8 (c : Srgb32) (alpha : ℕ) : Srgba8 := Srgba8.from_srgb32 c alpha

/-- Embeds `Srgb32::to_linear_srgb32` (`srgb.rs`): channels through
`linearize32` with `GAMMA_32`. -/
def Srgb32.to_linear_srgb32 (P : F32Math) (c : Srgb32) : LinearSrgb32 :=
  { r := linearize32 P c.r GAMMA_32
    g := linearize32 P c.g GAMMA_32
    b := linearize32 P c.b GAMMA_32 }

/-- Embeds `Srgb32::to_linear_srgba32` (`srgb.rs`). -/
def Srgb32.to_linear_srgba32 (P : F32Math) (c : Srgb32) (alpha : ℚ) : LinearSrgba32 :=
  { r := linearize32 P c.r GAMMA_32
    g := linearize32 P c.g GAMMA_32
    b := linearize32 P c.b GAMMA_32
    a := alpha }

/-- Embeds `Srgba32::to_srgb32` (`srgb.rs`). -/
def Srgba32.to_srgb32 (c : Srgba32) : Srgb32 := Srgb32.from_srgba32 c

/-- Embeds `Srgba32::to_srgba8` (`srgb.rs`). -/
def Srgba32.to_srgba8 (c : Srgba32) : Srgba8 := Srgba8.from_srgba32 c

/-- Embeds `Srgba32::to_linear_srgb32` (`srgb.rs`): r, g, b through
`linearize32`, alpha dropped. -/
def Srgba32.to_linear_srgb32 (P : F32Math) (c : Srgba32) : LinearSrgb32 :=
  { r := linearize32 P c.r GAMMA_32
    g := linearize32 P c.g GAMMA_32
    b := linearize32 P c.b GAMMA_32 }

/-- Embeds `Srgba32::to_linear_srgba32` (`srgb.rs`): r, g, b through
`linearize32`, alpha copied verbatim. -/
def Srgba32.to_linear_srgba32 (P : F32Math) (c : Srgba32) : LinearSrgba32 :=
  { r := linearize32 P c.r GAMMA_32
    g := linearize32 P c.g GAMMA_32
    b := linearize32 P c.b GAMMA_32
    a := c.a }

/-- Embeds `Srgba32::from_linear_srgba32` (`srgb.rs`): r, g, b through
`nonlinearize32`, alpha copied verbatim. -/
def Srgba32.from_linear_srgba32 (P : F32Math) (c : LinearSrgba32) : Srgba32 :=
  { r := nonlinearize32 P c.r GAMMA_32
    g := nonlinearize32 P c.g GAMMA_32
    b := nonlinearize32 P c.b GAMMA_32
    a := c.a }

/-- Embeds `LinearSrgb32::to_srgb32` (`srgb.rs`): channels through
`nonlinearize32` with `GAMMA_32`. -/
def LinearSrgb32.to_srgb32 (P : F32Math) (c : LinearSrgb32) : Srgb32 :=
  { r := nonlinearize32 P c.r GAMMA_32
    g := nonlinearize32 P c.g GAMMA_32
    b := nonlinearize32 P c.b GAMMA_32 }

/-- Embeds `LinearSrgb32::to_srgba32` (`srgb.rs`). -/
def LinearSrgb32.to_srgba32 (P : F32Math) (c : LinearSrgb32) (alpha : ℚ) : Srgba32 :=
  { r := nonlinearize32 P c.r GAMMA_32
    g := nonlinearize32 P c.g GAMMA_32
    b := nonlinearize32 P c.b GAMMA_32
    a := alpha }

/-- Embeds `LinearSrgb32.to_linear_srgba32` (`srgb.rs`). -/
def LinearSrgb32.to_linear_srgba32 (c : LinearSrgb32) (alpha : ℚ) : LinearSrgba32 :=
  { r := c.r, g := c.g, b := c.b, a := alpha }

/-- Embeds `LinearSrgb32::to_oklab32` (`srgb.rs`), i.e.
`Oklab32::from_linear_srgb32` (`oklab.rs`). -/
def LinearSrgb32.to_oklab32 (P : F32Math) (c : LinearSrgb32) : Oklab32 :=
  linear_srgb32_to_oklab32 P c

/-- Embeds `LinearSrgba32::to_linear_srgb32` (`srgb.rs`): verbatim field
copies, alpha dropped. -/
def LinearSrgba32.to_linear_srgb32 (c : LinearSrgba32) : LinearSrgb32 :=
  { r := c.r, g := c.g, b := c.b }

/-- Embeds `LinearSrgba32::from_srgba32` (`srgb.rs`): r, g, b through
`linearize32`, alpha copied verbatim. -/
def LinearSrgba32.from_srgba32 (P : F32Math) (c : Srgba32) : LinearSrgba32 :=
  { r := linearize32 P c.r GAMMA_32
    g := linearize32 P c.g GAMMA_32
    b := linearize32 P c.b GAMMA_32
    a := c.a }

/-- Embeds `LinearSrgba32::to_srgba32` (`srgb.rs`): r, g, b through
`nonlinearize32`, alpha copied verbatim. -/
def LinearSrgba32.to_srgba32 (P : F32Math) (c : LinearSrgba32) : Srgba32 :=
  { r := nonlinearize32 P c.r GAMMA_32
    g := nonlinearize32 P c.g GAMMA_32
    b := nonlinearize32 P c.b GAMMA_32
    a := c.a }

/-- Embeds `LinearSrgba32::from_srgba8` (`srgb.rs`): `c.to_srgba32()` then
r, g, b through `linearize32` and alpha copied. -/
def LinearSrgba32.from_srgba8 (P : F32Math) (c : Srgba8) : LinearSrgba32 :=
  let c32 := Srgba8.to_srgba32 c
  { r := linearize32 P c32.r GAMMA_32
    g := linearize32 P c32.g GAMMA_32
    b := linearize32 P c32.b GAMMA_32
    a := c32.a }

/-- Embeds `LinearSrgba32::to_srgba8` (`srgb.rs`): builds the nonlinear
`Srgba32` (alpha copied) and quantizes it with `Srgba32::to_srgba8`. -/
def LinearSrgba32.to_srgba8 (P : F32Math) (c : LinearSrgba32) : Srgba8 :=
  Srgba32.to_srgba8
    { r := nonlinearize32 P c.r GAMMA_32
      g := nonlinearize32 P c.g GAMMA_32
      b := nonlinearize32 P c.b GAMMA_32
      a := c.a }

/-- Embeds `Srgba8::to_linear_srgba32` (`srgb.rs`):
`self.to_srgba32().to_linear_srgba32()`. -/
def Srgba8.to_linear_srgba32 (P : F32Math) (c : Srgba8) : LinearSrgba32 :=
  Srgba32.to_linear_srgba32 P (Srgba8.to_srgba32 c)

/-- Embeds `Srgba8::from_linear_srgba32` (`srgb.rs`):
`c.to_srgba32().to_srgba8()`. -/
def Srgba8.from_linear_srgba32 (P : F32Math) (c : LinearSrgba32) : Srgba8 :=
  Srgba32.to_srgba8 (LinearSrgba32.to_srgba32 P c)

/-- Embeds `Oklab32::from_linear_srgb32` (`oklab.rs`). -/
def Oklab32.from_linear_srgb32 (P : F32Math) (c : LinearSrgb32) : Oklab32 :=
  linear_srgb32_to_oklab32 P c

/-- Embeds `Oklab32::to_linear_srgb32` (`oklab.rs`). -/
def Oklab32.to_linear_srgb32 (c : Oklab32) : LinearSrgb32 :=
  oklab32_to_linear_srgb32 c

/-- Embeds `Oklab32::to_oklch32` (`oklab.rs`). -/
def Oklab32.to_oklch32 (P : F32Math) (c : Oklab32) : Oklch32 :=
  oklab32_to_oklch32 P c

/-- Embeds `Oklab32::from_oklch32` (`oklab.rs`). -/
def Oklab32.from_oklch32 (P : F32Math) (c : Oklch32) : Oklab32 :=
  oklch32_to_oklab32 P c

/-- Embeds `Oklch32::to_oklab32` (`oklab.rs`). -/
def Oklch32.to_oklab32 (P : F32Math) (c : Oklch32) : Oklab32 :=
  oklch32_to_oklab32 P c

/-- Embeds `Srgb32::to_oklab32` (`srgb.rs`):
`self.to_linear_srgb32().to_oklab32()`. -/
def Srgb32.to_oklab32 (P : F32Math) (c : Srgb32) : Oklab32 :=
  LinearSrgb32.to_oklab32 P (Srgb32.to_linear_srgb32 P c)

/-- Embeds `Srgb32::to_oklch32` (`srgb.rs`):
`self.to_oklab32().to_oklch32()`. -/
def Srgb32.to_oklch32 (P : F32Math) (c : Srgb32) : Oklch32 :=
  Oklab32.to_oklch32 P (Srgb32.to_oklab32 P c)

/-- Embeds `Srgb8::to_oklab32` (`srgb.rs`):
`self.to_srgb32().to_linear_srgb32().to_oklab32()`. -/
def Srgb8.to_oklab32 (P : F32Math) (c : Srgb8) : Oklab32 :=
  LinearSrgb32.to_oklab32 P (Srgb32.to_linear_srgb32 P (Srgb8.to_srgb32 c))

/-- Embeds `Srgb8::to_oklch32` (`srgb.rs`):
`self.to_oklab32().to_oklch32()`. -/
def Srgb8.to_oklch32 (P : F32Math) (c : Srgb8) : Oklch32 :=
  Oklab32.to_oklch32 P (Srgb8.to_oklab32 P c)

/-- Embeds `Srgba8::to_oklab32` (`srgb.rs`):
`self.to_srgb32().to_linear_srgb32().to_oklab32()`. -/
def Srgba8.to_oklab32 (P : F32Math) (c : Srgba8) : Oklab32 :=
  LinearSrgb32.to_oklab32 P (Srgb32.to_linear_srgb32 P (Srgba8.to_srgb32 c))

/-- Embeds `Srgba8::to_oklch32` (`srgb.rs`):
`self.to_oklab32().to_oklch32()`. -/
def Srgba8.to_oklch32 (P : F32Math) (c : Srgba8) : Oklch32 :=
  Oklab32.to_oklch32 P (Srgba8.to_oklab32 P c)

/-- Embeds `<Srgb8 as Color>::color_luminosity` (`color.rs`):
`Unorm8::from_f32(self.to_oklab32().l).0`. -/
def Srgb8.color_luminosity (P : F32Math) (c : Srgb8) : ℕ :=
  Unorm8.from_f32 (Srgb8.to_oklab32 P c).l

/-- Embeds `<Srgb8 as Color>::color_hue` (`color.rs`):
`Unorm8::from_f32(self.to_oklch32().h).0`. -/
def Srgb8.color_hue (P : F32Math) (c : Srgb8) : ℕ :=
  Unorm8.from_f32 (Srgb8.to_oklch32 P c).h

/-- Embeds `<Srgba8 as Color>::color_luminosity` (`color.rs`). -/
def Srgba8.color_luminosity (P : F32Math) (c : Srgba8) : ℕ :=
  Unorm8.from_f32 (Srgba8.to_oklab32 P c).l

/-- Embeds `<Srgba8 as Color>::color_hue` (`color.rs`). -/
def Srgba8.color_hue (P : F32Math) (c : Srgba8) : ℕ :=
  Unorm8.from_f32 (Srgba8.to_oklch32 P c).h

/-! Spec-side definitions, written from the specification's words (sections
4.2, 4.3, 4.4), to be compared with the definitions embedded from the source. -/

/-- Spec formula for `linearize` (section 4.2): if `x >= 0.04045` return
`((x + 0.055) / 1.055)^gamma`, else `x / 12.92`. -/
def linearizeSpec (P : F32Math) (x gamma : ℚ) : ℚ :=
  if x ≥ 0.04045 then P.powf ((x + 0.055) / 1.055) gamma else x / 12.92

/-- Spec formula for `nonlinearize` (section 4.2): if `x >= 0.0031308` return
`1.055 * x^(1 / gamma) - 0.055`, else `12.92 * x`. -/
def nonlinearizeSpec (P : F32Math) (x gamma : ℚ) : ℚ :=
  if x ≥ 0.0031308 then 1.055 * P.powf x (1 / gamma) - 0.055 else 12.92 * x

/-- A `3 × 3` matrix of rational coefficients. -/
structure Mat3 where
  m00 : ℚ
  m01 : ℚ
  m02 : ℚ
  m10 : ℚ
  m11 : ℚ
  m12 : ℚ
  m20 : ℚ
  m21 : ℚ
  m22 : ℚ

/-- Matrix-vector application of a `Mat3`. -/
def Mat3.apply (M : Mat3) (x y z : ℚ) : ℚ × ℚ × ℚ :=
  (M.m00 * x + M.m01 * y + M.m02 * z,
   M.m10 * x + M.m11 * y + M.m12 * z,
   M.m20 * x + M.m21 * y + M.m22 * z)

/-- The published Oklab forward matrix `M1` (linear sRGB to LMS, D65). -/
def oklabM1 : Mat3 :=
  ⟨0.4122214708, 0.5363325363, 0.0514459929,
   0.2119034982, 0.6806995451, 0.1073969566,
   0.0883024619, 0.2817188376, 0.6299787005⟩

/-- The published Oklab forward matrix `M2` (cube-rooted LMS to Lab). -/
def oklabM2 : Mat3 :=
  ⟨0.2104542553, 0.7936177850, -0.0040720468,
   1.9779984951, -2.4285922050, 0.4505937099,
   0.0259040371, 0.7827717662, -0.8086757660⟩

/-- The published Oklab inverse matrix for `M2` (Lab to pre-cube LMS). -/
def oklabM2inv : Mat3 :=
  ⟨1, 0.3963377774, 0.2158037573,
   1, -0.1055613458, -0.0638541728,
   1, -0.0894841775, -1.2914855480⟩

/-- The published Oklab inverse matrix for `M1` (cubed LMS to linear sRGB). -/
def oklabM1inv : Mat3 :=
  ⟨4.0767416621, -3.3077115913, 0.2309699292,
   -1.2684380046, 2.6097574011, -0.3413193965,
   -0.0041960863, -0.7034186147, 1.7076147010⟩

/-- Spec formula for `linear_srgb_to_oklab` (section 4.3): apply `M1` to
`(r, g, b)`, take the cube root of each intermediate, then apply `M2`. -/
def linearSrgbToOklabSpec (P : F32Math) (c : LinearSrgb32) : Oklab32 :=
  let lms := oklabM1.apply c.r c.g c.b
  let l := P.cbrt lms.1
  let m := P.cbrt lms.2.1
  let s := P.cbrt lms.2.2
  let lab := oklabM2.apply l m s
  { l := lab.1, a := lab.2.1, b := lab.2.2 }

/-- Spec formula for `oklab_to_linear_srgb` (section 4.3): apply the inverse
of `M2` to `(L, a, b)`, cube each intermediate, then apply the inverse of
`M1`. -/
def oklabToLinearSrgbSpec (c : Oklab32) : LinearSrgb32 :=
  let lms1 := oklabM2inv.apply c.l c.a c.b
  let l := lms1.1 ^ 3
  let m := lms1.2.1 ^ 3
  let s := lms1.2.2 ^ 3
  let rgb := oklabM1inv.apply l m s
  { r := rgb.1, g := rgb.2.1, b := rgb.2.2 }

/-- Spec formula for Oklab to Oklch (section 4.4): `C = hypot(a, b)`,
`H = atan2(b, a)` converted to degrees, wrapped into `[0, 360)` by adding
`360` to negative results; `L` passed through. -/
def oklabToOklchSpec (P : F32Math) (c : Oklab32) : Oklch32 :=
  let hdeg := P.atan2 c.b c.a * (180 / PI_32)
  { l := c.l
    c := P.hypot c.a c.b
    h := if hdeg < 0 then hdeg + 360 else hdeg }

/-- Spec formula for Oklch to Oklab (section 4.4): `a = C * cos(H_in_radians)`,
`b = C * sin(H_in_radians)`; `L` passed through. -/
def oklchToOklabSpec (P : F32Math) (c : Oklch32) : Oklab32 :=
  let hrad := c.h * (PI_32 / 180)
  { l := c.l, a := c.c * P.cos hrad, b := c.c * P.sin hrad }

/-! Checked (panic-tracking) variants for the totality claim.  Rust can only
panic through explicit panics, unwraps, out-of-bounds indexing or overflowing
integer arithmetic; none of these constructs occur in the numeric core, and
`f32` arithmetic together with the math intrinsics is total in Rust (it
produces infinities or NaN instead of failing).  The checked variants replay
each function in the `Option` monad where every primitive step is lifted;
a hypothetical panic site would be a `none`. -/

/-- Checked variant of `linearize32`. -/
def linearize32Checked (P : F32Math) (nonlinear gamma : ℚ) : Option ℚ :=
  if nonlinear ≥ 0.04045 then do
    let base ← some ((nonlinear + 0.055) / (1 + 0.055))
    some (P.powf base gamma)
  else
    some (nonlinear / 12.92)

/-- Checked variant of `nonlinearize32`. -/
def nonlinearize32Checked (P : F32Math) (linear gamma : ℚ) : Option ℚ :=
  if linear ≥ 0.0031308 then do
    let e ← some (1.0 / gamma)
    some (1.055 * P.powf linear e - 0.055)
  else
    some (12.92 * linear)

/-- Checked variant of `linear_srgb32_to_oklab32`. -/
def linear_srgb32_to_oklab32Checked (P : F32Math) (c : LinearSrgb32) : Option Oklab32 := do
  let l ← some (P.cbrt (0.4122214708 * c.r + 0.5363325363 * c.g + 0.0514459929 * c.b))
  let m ← some (P.cbrt (0.2119034982 * c.r + 0.6806995451 * c.g + 0.1073969566 * c.b))
  let s ← some (P.cbrt (0.0883024619 * c.r + 0.2817188376 * c.g + 0.6299787005 * c.b))
  some
    { l := 0.2104542553 * l + 0.7936177850 * m - 0.0040720468 * s
      a := 1.9779984951 * l - 2.4285922050 * m + 0.4505937099 * s
      b := 0.0259040371 * l + 0.7827717662 * m - 0.8086757660 * s }

/-- Checked variant of `oklab32_to_linear_srgb32`. -/
def oklab32_to_linear_srgb32Checked (c : Oklab32) : Option LinearSrgb32 := do
  let l1 ← some (c.l + 0.3963377774 * c.a + 0.2158037573 * c.b)
  let m1 ← some (c.l - 0.1055613458 * c.a - 0.0638541728 * c.b)
  let s1 ← some (c.l - 0.0894841775 * c.a - 1.2914855480 * c.b)
  let l ← some (l1 * l1 * l1)
  let m ← some (m1 * m1 * m1)
  let s ← some (s1 * s1 * s1)
  some
    { r := 4.0767416621 * l - 3.3077115913 * m + 0.2309699292 * s
      g := -1.2684380046 * l + 2.6097574011 * m - 0.3413193965 * s
      b := -0.0041960863 * l - 0.7034186147 * m + 1.7076147010 * s }

/-- Checked variant of `oklab32_to_oklch32`. -/
def oklab32_to_oklch32Checked (P : F32Math) (c : Oklab32) : Option Oklch32 := do
  let hue ← some (P.atan2 c.b c.a * 180 / PI_32)
  let h ← some (if hue ≥ 0 then hue else hue + 360)
  some { l := c.l, c := P.hypot c.a c.b, h := h }

/-- Checked variant of `oklch32_to_oklab32`. -/
def oklch32_to_oklab32Checked (P : F32Math) (c : Oklch32) : Option Oklab32 := do
  let a ← some (c.c * P.cos (c.h * PI_32 / 180))
  let b ← some (c.c * P.sin (c.h * PI_32 / 180))
  some { l := c.l, a := a, b := b }

/-- Checked variant of the constructor `Oklab32::new`. -/
def Oklab32.newChecked (lightness a b : ℚ) : Option Oklab32 := do
  let l ← some (pmax 0.0 lightness)
  let a1 ← some (pclamp a (-0.5) 0.5)
  let b1 ← some (pclamp b (-0.5) 0.5)
  some { l := l, a := a1, b := b1 }

/-- Checked variant of the constructor `Oklch32::new`. -/
def Oklch32.newChecked (luminance chroma hue : ℚ) : Option Oklch32 := do
  let l ← some (pclamp luminance 0.0 100.0)
  let c ← some (pclamp chroma 0.0 0.5)
  let h ← some (pclamp hue 0.0 360)
  some { l := l, c := c, h := h }

/-- Checked variant of `Srgb32::to_linear_srgb32`. -/
def Srgb32.to_linear_srgb32Checked (P : F32Math) (c : Srgb32) : Option LinearSrgb32 := do
  let r ← linearize32Checked P c.r GAMMA_32
  let g ← linearize32Checked P c.g GAMMA_32
  let b ← linearize32Checked P c.b GAMMA_32
  some { r := r, g := g, b := b }

/-- Checked variant of the composite chain `Srgb8::to_oklch32` (quantization,
gamma, matrix and polar steps in sequence). -/
def Srgb8.to_oklch32Checked (P : F32Math) (c : Srgb8) : Option Oklch32 := do
  let lin ← Srgb32.to_linear_srgb32Checked P (Srgb8.to_srgb32 c)
  let lab ← linear_srgb32_to_oklab32Checked P lin
  oklab32_to_oklch32Checked P lab

/-! Helper lemmas. -/

/-- Over a linear order without NaN, the `PartialOrd` maximum is `max`. -/
theorem pmax_eq_max (a b : ℚ) : pmax a b = max a b := by
  unfold pmax
  rcases le_or_lt a b with h | h
  · rw [if_neg (not_lt.mpr h), max_eq_right h]
  · rw [if_pos h, max_eq_left h.le]

/-- Over a linear order without NaN, the `PartialOrd` minimum is `min`. -/
theorem pmin_eq_min (a b : ℚ) : pmin a b = min a b := by
  unfold pmin
  rcases le_or_lt b a with h | h
  · rw [if_neg (not_lt.mpr h), min_eq_right h]
  · rw [if_pos h, min_eq_left h.le]

/-- `pclamp` is the two-sided clamp. -/
theorem pclamp_eq (v lo hi : ℚ) : pclamp v lo hi = min (max v lo) hi := by
  unfold pclamp
  rw [pmax_eq_max, pmin_eq_min]

/-- The checked gamma application returns a value on every input. -/
theorem linearize32Checked_eq (P : F32Math) (x gamma : ℚ) :
    linearize32Checked P x gamma = some (linearize32 P x gamma) := by
  by_cases h : x ≥ (0.04045 : ℚ) <;> simp [linearize32Checked, linearize32, h]

/-- The checked gamma removal returns a value on every input. -/
theorem nonlinearize32Checked_eq (P : F32Math) (x gamma : ℚ) :
    nonlinearize32Checked P x gamma = some (nonlinearize32 P x gamma) := by
  by_cases h : x ≥ (0.0031308 : ℚ) <;> simp [nonlinearize32Checked, nonlinearize32, h]

/-- The checked sRGB-to-linear conversion returns a value on every input. -/
theorem srgb32_to_linear_checked_eq (P : F32Math) (c : Srgb32) :
    Srgb32.to_linear_srgb32Checked P c = some (Srgb32.to_linear_srgb32 P c) := by
  simp [Srgb32.to_linear_srgb32Checked, Srgb32.to_linear_srgb32, linearize32Checked_eq]

/-! Claim theorems. -/

/-- C1: `linearize32(x, gamma)` returns `((x + 0.055) / 1.055)^gamma` when
`x >= 0.04045` and `x / 12.92` otherwise; `nonlinearize32(x, gamma)` returns
`1.055 * x^(1 / gamma) - 0.055` when `x >= 0.0031308` and `12.92 * x`
otherwise; and the default gamma constant `GAMMA_32`, the one every
sRGB-linear conversion applies, equals `2.4`. -/
theorem claim_C1 :
    (∀ (P : F32Math) (x gamma : ℚ), linearize32 P x gamma = linearizeSpec P x gamma)
    ∧ (∀ (P : F32Math) (x gamma : ℚ), nonlinearize32 P x gamma = nonlinearizeSpec P x gamma)
    ∧ GAMMA_32 = 2.4
    ∧ (∀ (P : F32Math) (c : Srgb32), Srgb32.to_linear_srgb32 P c =
        { r := linearize32 P c.r GAMMA_32
          g := linearize32 P c.g GAMMA_32
          b := linearize32 P c.b GAMMA_32 })
    ∧ (∀ (P : F32Math) (c : LinearSrgb32), LinearSrgb32.to_srgb32 P c =
        { r := nonlinearize32 P c.r GAMMA_32
          g := nonlinearize32 P c.g GAMMA_32
          b := nonlinearize32 P c.b GAMMA_32 }) := by
  refine ⟨fun P x gamma => ?_, fun P x gamma => ?_, rfl, fun P c => rfl, fun P c => rfl⟩
  · by_cases h : x ≥ (0.04045 : ℚ)
    · simp only [linearize32, linearizeSpec, if_pos h]
      congr 1
      norm_num
    · simp only [linearize32, linearizeSpec, if_neg h]
  · by_cases h : x ≥ (0.0031308 : ℚ)
    · simp only [nonlinearize32, nonlinearizeSpec, if_pos h]
      norm_num
    · simp only [nonlinearize32, nonlinearizeSpec, if_neg h]

/-- C2: the forward Oklab conversion computes the cube roots of the `M1`
linear combinations of `(r, g, b)` and applies `M2`, and the inverse applies
the published inverse matrices with a cube in between, with exactly the
published coefficient values. -/
theorem claim_C2 :
    (∀ (P : F32Math) (c : LinearSrgb32),
      Oklab32.from_linear_srgb32 P c = linearSrgbToOklabSpec P c)
    ∧ (∀ c : Oklab32, Oklab32.to_linear_srgb32 c = oklabToLinearSrgbSpec c) := by
  constructor
  · intro P c
    simp only [Oklab32.from_linear_srgb32, linear_srgb32_to_oklab32, linearSrgbToOklabSpec,
      Mat3.apply, oklabM1, oklabM2, Oklab32.mk.injEq]
    refine ⟨by ring, by ring, by ring⟩
  · intro c
    simp only [Oklab32.to_linear_srgb32, oklab32_to_linear_srgb32, oklabToLinearSrgbSpec,
      Mat3.apply, oklabM2inv, oklabM1inv, LinearSrgb32.mk.injEq]
    refine ⟨by ring, by ring, by ring⟩

/-- C3: Oklab-to-Oklch returns chroma `hypot(a, b)` and hue
`atan2(b, a)` converted to degrees with `360` added to negative results;
Oklch-to-Oklab returns `a = c * cos(h_in_radians)` and
`b = c * sin(h_in_radians)`; the `l` field is passed through unchanged in both
directions. -/
theorem claim_C3 :
    (∀ (P : F32Math) (c : Oklab32), Oklab32.to_oklch32 P c = oklabToOklchSpec P c)
    ∧ (∀ (P : F32Math) (c : Oklch32), Oklch32.to_oklab32 P c = oklchToOklabSpec P c)
    ∧ (∀ (P : F32Math) (c : Oklab32), (Oklab32.to_oklch32 P c).l = c.l)
    ∧ (∀ (P : F32Math) (c : Oklch32), (Oklch32.to_oklab32 P c).l = c.l) := by
  refine ⟨fun P c => ?_, fun P c => ?_, fun P c => rfl, fun P c => rfl⟩
  · simp only [Oklab32.to_oklch32, oklab32_to_oklch32, oklabToOklchSpec, Oklch32.mk.injEq]
    refine ⟨trivial, trivial, ?_⟩
    rw [show P.atan2 c.b c.a * 180 / PI_32 = P.atan2 c.b c.a * (180 / PI_32) from by ring]
    rcases lt_or_ge (P.atan2 c.b c.a * (180 / PI_32)) 0 with h | h
    · rw [if_neg (not_le.mpr h), if_pos h]
    · rw [if_pos h, if_neg (not_lt.mpr h)]
  · have e : c.h * PI_32 / 180 = c.h * (PI_32 / 180) := by ring
    simp only [Oklch32.to_oklab32, oklch32_to_oklab32, oklchToOklabSpec, e]

/-- C4: the 8-bit to float quantization is the linear map `byte / 255`:
`Srgb8 { 10, 11, 12 }.to_srgb32()` equals
`Srgb32 { 10 / 255, 11 / 255, 12 / 255 }` exactly, and
`Srgb8 { 10, 11, 12 }.to_srgba8(13)` equals `Srgba8 { 10, 11, 12, 13 }`
exactly. -/
theorem claim_C4 :
    Srgb8.to_srgb32 ⟨10, 11, 12⟩ = ⟨10 / 255, 11 / 255, 12 / 255⟩
    ∧ Srgb8.to_srgba8 ⟨10, 11, 12⟩ 13 = ⟨10, 11, 12, 13⟩ := by
  constructor
  · simp only [Srgb8.to_srgb32, Unorm8.to_f32, Srgb32.mk.injEq]
    norm_num
  · rfl

/-- C5: the alpha add-and-drop round trips are exact identities:
`c.to_srgba8(255).to_srgb8() == c` for every `Srgb8`,
`c.to_srgb8().to_srgba8(c.a) == c` for every `Srgba8`, and
`c.to_srgba32(1.0).to_srgb32() == c` for every `Srgb32`. -/
theorem claim_C5 :
    (∀ c : Srgb8, Srgba8.to_srgb8 (Srgb8.to_srgba8 c 255) = c)
    ∧ (∀ c : Srgba8, Srgb8.to_srgba8 (Srgba8.to_srgb8 c) c.a = c)
    ∧ (∀ c : Srgb32, Srgba32.to_srgb32 (Srgb32.to_srgba32 c 1.0) = c) := by
  refine ⟨fun c => ?_, fun c => ?_, fun c => ?_⟩ <;> cases c <;> rfl

/-- C6 counterexample: `Oklab32::new` does not clamp lightness into
`[0, 100]` (input `200` is kept, not saturated to `100`), and `Oklch32::new`
does not wrap nor clamp the hue into the half-open `[0, 360)` (input `400`
saturates to exactly `360`). -/
theorem claim_C6_counterexample :
    ¬ (Oklab32.new 200 0 0).l ≤ 100 ∧ ¬ (Oklch32.new 70 (1 / 10) 400).h < 360 := by
  constructor <;> norm_num [Oklab32.new, Oklch32.new, pmax, pmin, pclamp]

/-- C6 as amended: the constructors saturate and never reject, but
`Oklab32::new` clamps lightness only from below at `0` (no upper bound) while
clamping `a` and `b` into `[-0.5, 0.5]`, and `Oklch32::new` clamps `l` into
`[0, 100]`, `c` into `[0, 0.5]` and `h` into the closed interval `[0, 360]`
(the value `360` is attainable). -/
theorem claim_C6_amended :
    ∀ lightness a b luminance chroma hue : ℚ,
      (Oklab32.new lightness a b).l = max 0 lightness
      ∧ (Oklab32.new lightness a b).a = min (max a (-0.5)) 0.5
      ∧ (Oklab32.new lightness a b).b = min (max b (-0.5)) 0.5
      ∧ (Oklch32.new luminance chroma hue).l = min (max luminance 0) 100
      ∧ (Oklch32.new luminance chroma hue).c = min (max chroma 0) 0.5
      ∧ (Oklch32.new luminance chroma hue).h = min (max hue 0) 360 := by
  intro lightness a b luminance chroma hue
  refine ⟨?_, ?_, ?_, ?_, ?_, ?_⟩ <;>
    simp [Oklab32.new, Oklch32.new, pclamp_eq, pmax_eq_max] <;> norm_num

/-- C7: in every conversion between two alpha-bearing types the alpha channel
is only copied (float to float) or passed through the `Unorm8` codec
(`u8` to float), never through the gamma transfer function or the Oklab
transform, while `r`, `g`, `b` are the channels that go through
`linearize32` / `nonlinearize32`. -/
theorem claim_C7 :
    ∀ (P : F32Math) (c8 : Srgba8) (c32 : Srgba32) (cl : LinearSrgba32),
      (Srgba8.to_srgba32 c8).a = Unorm8.to_f32 c8.a
      ∧ (Srgba8.from_srgba32 c32).a = Unorm8.from_f32 c32.a
      ∧ (Srgba8.to_linear_srgba32 P c8).a = Unorm8.to_f32 c8.a
      ∧ (Srgba8.from_linear_srgba32 P cl).a = Unorm8.from_f32 cl.a
      ∧ (Srgba32.to_linear_srgba32 P c32).a = c32.a
      ∧ (Srgba32.from_linear_srgba32 P cl).a = cl.a
      ∧ (LinearSrgba32.to_srgba32 P cl).a = cl.a
      ∧ (LinearSrgba32.from_srgba32 P c32).a = c32.a
      ∧ (LinearSrgba32.to_srgba8 P cl).a = Unorm8.from_f32 cl.a
      ∧ (LinearSrgba32.from_srgba8 P c8).a = Unorm8.to_f32 c8.a
      ∧ Srgba32.to_linear_srgba32 P c32 =
          { r := linearize32 P c32.r GAMMA_32
            g := linearize32 P c32.g GAMMA_32
            b := linearize32 P c32.b GAMMA_32
            a := c32.a }
      ∧ LinearSrgba32.to_srgba32 P cl =
          { r := nonlinearize32 P cl.r GAMMA_32
            g := nonlinearize32 P cl.g GAMMA_32
            b := nonlinearize32 P cl.b GAMMA_32
            a := cl.a } := by
  intro P c8 c32 cl
  exact ⟨rfl, rfl, rfl, rfl, rfl, rfl, rfl, rfl, rfl, rfl, rfl, rfl⟩

/-- C8: the numeric core is total: replayed in a panic-tracking `Option`
monad where every primitive step is lifted, each transfer function, matrix
transform, polar transform, constructor, and the composite `Srgb8` to
`Oklch32` chain returns `some` value on every input, for every instantiation
of the external math primitives. -/
theorem claim_C8 :
    (∀ (P : F32Math) (x gamma : ℚ),
      linearize32Checked P x gamma = some (linearize32 P x gamma))
    ∧ (∀ (P : F32Math) (x gamma : ℚ),
      nonlinearize32Checked P x gamma = some (nonlinearize32 P x gamma))
    ∧ (∀ (P : F32Math) (c : LinearSrgb32),
      linear_srgb32_to_oklab32Checked P c = some (linear_srgb32_to_oklab32 P c))
    ∧ (∀ c : Oklab32,
      oklab32_to_linear_srgb32Checked c = some (oklab32_to_linear_srgb32 c))
    ∧ (∀ (P : F32Math) (c : Oklab32),
      oklab32_to_oklch32Checked P c = some (oklab32_to_oklch32 P c))
    ∧ (∀ (P : F32Math) (c : Oklch32),
      oklch32_to_oklab32Checked P c = some (oklch32_to_oklab32 P c))
    ∧ (∀ lightness a b : ℚ,
      Oklab32.newChecked lightness a b = some (Oklab32.new lightness a b))
    ∧ (∀ luminance chroma hue : ℚ,
      Oklch32.newChecked luminance chroma hue = some (Oklch32.new luminance chroma hue))
    ∧ (∀ (P : F32Math) (c : Srgb32),
      Srgb32.to_linear_srgb32Checked P c = some (Srgb32.to_linear_srgb32 P c))
    ∧ (∀ (P : F32Math) (c : Srgb8),
      Srgb8.to_oklch32Checked P c = some (Srgb8.to_oklch32 P c)) := by
  refine ⟨linearize32Checked_eq, nonlinearize32Checked_eq, fun P c => rfl, fun c => rfl,
    fun P c => rfl, fun P c => rfl, fun lightness a b => rfl, fun luminance chroma hue => rfl,
    srgb32_to_linear_checked_eq, fun P c => ?_⟩
  simp [Srgb8.to_oklch32Checked, srgb32_to_linear_checked_eq, Srgb8.to_oklch32,
    Srgb8.to_oklab32, Oklab32.to_oklch32, LinearSrgb32.to_oklab32]
  rfl

/-- C9: `squared_distance` on `Oklab32` is the Euclidean squared distance
`(x.l - y.l)^2 + (x.a - y.a)^2 + (x.b - y.b)^2` over the three components. -/
theorem claim_C9 :
    ∀ x y : Oklab32,
      Oklab32.squared_distance x y =
        (x.l - y.l) ^ 2 + (x.a - y.a) ^ 2 + (x.b - y.b) ^ 2 :=
  fun _ _ => rfl

/-- C10: on the 8-bit facade types, `color_hue` and `color_luminosity`
quantize through the `[0, 1]` `Unorm8` codec even though hue is in degrees and
Oklab lightness is specified in `[0, 100]`: whenever the computed Oklch hue is
at least `1.0` degree the accessor returns the saturated value `255`, and
whenever the computed Oklab lightness is at least `1.0` it likewise returns
`255`. -/
theorem claim_C10 :
    ∀ (P : F32Math) (c : Srgb8) (d : Srgba8),
      (1 ≤ (Srgb8.to_oklch32 P c).h → Srgb8.color_hue P c = 255)
      ∧ (1 ≤ (Srgb8.to_oklab32 P c).l → Srgb8.color_luminosity P c = 255)
      ∧ (1 ≤ (Srgba8.to_oklch32 P d).h → Srgba8.color_hue P d = 255)
      ∧ (1 ≤ (Srgba8.to_oklab32 P d).l → Srgba8.color_luminosity P d = 255) := by
  intro P c d
  refine ⟨fun h => ?_, fun h => ?_, fun h => ?_, fun h => ?_⟩ <;>
    simp only [Srgb8.color_hue, Srgb8.color_luminosity, Srgba8.color_hue,
      Srgba8.color_luminosity, Unorm8.from_f32]
  · rw [if_neg (by linarith), if_pos h]
  · rw [if_neg (by linarith), if_pos h]
  · rw [if_neg (by linarith), if_pos h]
  · rw [if_neg (by linarith), if_pos h]

/-- A concrete instantiation of the abstract math primitives, used to witness
the saturating accessors on a concrete input. -/
def testPrims : F32Math :=
  { powf := fun _ _ => 0
    cbrt := fun _ => 2
    atan2 := fun _ _ => PI_32
    hypot := fun _ _ => 0
    cos := fun _ => 0
    sin := fun _ => 0 }

/-- C10 witness: for black (`Srgb8 { 0, 0, 0 }` and `Srgba8 { 0, 0, 0, 0 }`)
under the test primitives, the computed hue is `180` degrees and the computed
lightness is about `2`, so all four accessors saturate at `255`. -/
theorem claim_C10_witness :
    Srgb8.color_hue testPrims ⟨0, 0, 0⟩ = 255
    ∧ Srgb8.color_luminosity testPrims ⟨0, 0, 0⟩ = 255
    ∧ Srgba8.color_hue testPrims ⟨0, 0, 0, 0⟩ = 255
    ∧ Srgba8.color_luminosity testPrims ⟨0, 0, 0, 0⟩ = 255 :=
  ⟨(claim_C10 testPrims ⟨0, 0, 0⟩ ⟨0, 0, 0, 0⟩).1
    (by norm_num [Srgb8.to_oklch32, Srgb8.to_oklab32, Oklab32.to_oklch32, oklab32_to_oklch32,
      LinearSrgb32.to_oklab32, linear_srgb32_to_oklab32, Srgb32.to_linear_srgb32, linearize32,
      Srgb8.to_srgb32, Unorm8.to_f32, testPrims, PI_32, GAMMA_32]),
   (claim_C10 testPrims ⟨0, 0, 0⟩ ⟨0, 0, 0, 0⟩).2.1
    (by norm_num [Srgb8.to_oklab32, LinearSrgb32.to_oklab32, linear_srgb32_to_oklab32,
      Srgb32.to_linear_srgb32, linearize32, Srgb8.to_srgb32, Unorm8.to_f32, testPrims,
      GAMMA_32]),
   (claim_C10 testPrims ⟨0, 0, 0⟩ ⟨0, 0, 0, 0⟩).2.2.1
    (by norm_num [Srgba8.to_oklch32, Srgba8.to_oklab32, Oklab32.to_oklch32, oklab32_to_oklch32,
      LinearSrgb32.to_oklab32, linear_srgb32_to_oklab32, Srgb32.to_linear_srgb32, linearize32,
      Srgba8.to_srgb32, Unorm8.to_f32, testPrims, PI_32, GAMMA_32]),
   (claim_C10 testPrims ⟨0, 0, 0⟩ ⟨0, 0, 0, 0⟩).2.2.2
    (by norm_num [Srgba8.to_oklab32, LinearSrgb32.to_oklab32, linear_srgb32_to_oklab32,
      Srgb32.to_linear_srgb32, linearize32, Srgba8.to_srgb32, Unorm8.to_f32, testPrims,
      GAMMA_32])⟩

end Acolor
